import Mathlib

/-!
Shallow embedding of the Consus KVS daemon (src/kvs/daemon.cc) with the
external collaborators it names (DataLayer, Configuration queries, the
message bus return codes), and theorems checking the specification's
claims about the daemon's message handlers.
-/

namespace Consus

/-- Bytes as they appear in an e::slice. -/
abbrev Byte := Fin 256

/-- Opaque 64-bit node identity (comm_id). -/
abbrev CommId := Nat

/-- Strongly typed data-center handle (data_center_id). -/
abbrev DataCenterId := Nat

/-- Modelled from the spec: common/constants.h is not under src/. The
partition index is "initially a 16-bit big-endian prefix of the key", so
the partition map has 65536 entries. -/
def CONSUS_KVS_PARTITIONS : Nat := 65536

/-- Modelled from the spec: common/constants.h is not under src/. The
replication factor is a small bound on replica-set size (the spec's
scenarios use five replicas and daemon.cc sets desired_replication to 5);
the theorems below use only that it is itself a valid partition index,
i.e. smaller than CONSUS_KVS_PARTITIONS. -/
def CONSUS_MAX_REPLICATION_FACTOR : Nat := 5

/-- Modelled from the spec: the numeric value of the tombstone flag lives
in the public consus.h header, not under src/; it is a single bit tested
with bitwise and, modelled here as the low bit. -/
def CONSUS_WRITE_TOMBSTONE : Nat := 1

/-- Return codes surfaced to clients (consus_returncode, spec section 6). -/
inductive ConsusRC
  | success
  | notFound
  | aborted
  | committed
  | garbage
deriving DecidableEq

/-- Lock kind carried by KVS_LOCK_OP (common/lock.h, modelled from the
spec: type is READ or WRITE). -/
inductive LockT
  | read
  | write
deriving DecidableEq

/-- Lock operation carried by KVS_LOCK_OP (common/lock.h, modelled from
the spec: op is ACQUIRE or RELEASE). -/
inductive LockOp
  | acquire
  | release
deriving DecidableEq

/-- Node states from the Configuration (spec section 3). -/
inductive KvsState
  | registered
  | online
  | offline
deriving DecidableEq

/-- Network endpoint (po6::net::location); the default-constructed value
is the empty location. -/
structure Location where
  host : List Byte
  port : Nat
deriving DecidableEq

/-- Default-constructed po6::net::location. -/
def emptyLocation : Location := { host := [], port := 0 }

/-- Messages the KVS daemon sends from the handlers under study. -/
inductive Message
  | rawRdResp (nonce : Nat) (rc : ConsusRC) (timestamp : Nat)
      (value : List Byte) (owner1 : CommId)
  | rawWrResp (nonce : Nat) (rc : ConsusRC) (owner1 owner2 : CommId)
  | lockOpResp (nonce : Nat) (rc : ConsusRC)
  | migrateAck (partition : Nat) (version : Nat)
deriving DecidableEq

/-- One DataLayer call performed by a handler, recorded as an effect. -/
inductive DLOp
  | get (table key : List Byte) (tsUpperBound : Nat)
  | put (table key : List Byte) (timestamp : Nat) (value : List Byte)
  | del (table key : List Byte) (timestamp : Nat)
deriving DecidableEq

/-- Modelled from the spec: common/configuration.cc is not under src/.
Spec section 4.7 lists the queries a Configuration exposes: exists,
get_address, get_state, get_data_center, map(dc, partition_index) to the
(owner1, owner2) pair, and a version. -/
structure Configuration where
  version : Nat
  idExists : CommId → Bool
  get_address : CommId → Location
  get_state : CommId → KvsState
  get_data_center : CommId → DataCenterId
  map : DataCenterId → Nat → CommId × CommId

/-- Modelled from the spec: the DataLayer is an abstract external
collaborator with get/put/del by key and timestamp; get returns the
returncode, the actual timestamp and the value. -/
structure DataLayer where
  get : List Byte → List Byte → Nat → ConsusRC × Nat × List Byte
  put : List Byte → List Byte → Nat → List Byte → ConsusRC
  del : List Byte → List Byte → Nat → ConsusRC

/-- Big-endian 16-bit read (e::unpack16be) of a two-byte buffer. -/
def unpack16be (b0 b1 : Byte) : Nat := 256 * b0.val + b1.val

/-- Translation of daemon::choose_index (src/kvs/daemon.cc lines 977-987):
a two-byte buffer is zeroed, the first min(key.size, 2) key bytes are
copied in, and the buffer is read as a 16-bit big-endian integer. The
table argument is unused in the source. -/
def choose_index (table key : List Byte) : Nat :=
  unpack16be
    (if h : 0 < key.length then key.get ⟨0, h⟩ else 0)
    (if h : 1 < key.length then key.get ⟨1, h⟩ else 0)

/-- Fields of a well-formed KVS_RAW_RD message. -/
structure RawRdReq where
  nonce : Nat
  table : List Byte
  key : List Byte
  timestamp : Nat
deriving DecidableEq

/-- Fields of a well-formed KVS_RAW_WR message. -/
structure RawWrReq where
  nonce : Nat
  flags : Nat
  table : List Byte
  key : List Byte
  timestamp : Nat
  value : List Byte
deriving DecidableEq

/-- Translation of daemon::process_raw_rd (src/kvs/daemon.cc lines
710-758): drop when the chosen index equals CONSUS_MAX_REPLICATION_FACTOR;
otherwise look up (owner1, owner2) with map(us.dc, index), call
DataLayer.get with the requested timestamp as upper bound, and send one
KVS_RAW_RD_RESP carrying the nonce, the returncode, the actual timestamp,
the value and owner1 back to the caller. The result pairs the DataLayer
calls performed with the messages sent. -/
def process_raw_rd (c : Configuration) (dc : DataCenterId) (dl : DataLayer)
    (caller : CommId) (req : RawRdReq) : List DLOp × List (CommId × Message) :=
  if choose_index req.table req.key = CONSUS_MAX_REPLICATION_FACTOR then
    ([], [])
  else
    ([DLOp.get req.table req.key req.timestamp],
      [(caller, Message.rawRdResp req.nonce
          (dl.get req.table req.key req.timestamp).1
          (dl.get req.table req.key req.timestamp).2.1
          (dl.get req.table req.key req.timestamp).2.2
          (c.map dc (choose_index req.table req.key)).1)])

/-- Translation of daemon::process_raw_wr (src/kvs/daemon.cc lines
802-868): drop when the chosen index equals CONSUS_MAX_REPLICATION_FACTOR;
otherwise call DataLayer.del when the tombstone flag is set and
DataLayer.put otherwise, and send one KVS_RAW_WR_RESP carrying the nonce,
the returncode and the (owner1, owner2) pair from map(us.dc, index). -/
def process_raw_wr (c : Configuration) (dc : DataCenterId) (dl : DataLayer)
    (caller : CommId) (req : RawWrReq) : List DLOp × List (CommId × Message) :=
  if choose_index req.table req.key = CONSUS_MAX_REPLICATION_FACTOR then
    ([], [])
  else if CONSUS_WRITE_TOMBSTONE &&& req.flags ≠ 0 then
    ([DLOp.del req.table req.key req.timestamp],
      [(caller, Message.rawWrResp req.nonce
          (dl.del req.table req.key req.timestamp)
          (c.map dc (choose_index req.table req.key)).1
          (c.map dc (choose_index req.table req.key)).2)])
  else
    ([DLOp.put req.table req.key req.timestamp req.value],
      [(caller, Message.rawWrResp req.nonce
          (dl.put req.table req.key req.timestamp req.value)
          (c.map dc (choose_index req.table req.key)).1
          (c.map dc (choose_index req.table req.key)).2)])

/-- Translation of daemon::process_lock_op (src/kvs/daemon.cc lines
893-910): the handler keeps no lock state, logs that it is a NOP and not
yet implemented, and replies KVS_LOCK_OP_RESP(nonce, CONSUS_SUCCESS) to
the caller unconditionally. -/
def process_lock_op (caller : CommId) (nonce : Nat) (table key : List Byte)
    (txid : Nat) (ty : LockT) (op : LockOp) : List (CommId × Message) :=
  [(caller, Message.lockOpResp nonce ConsusRC.success)]

/-- Translation of daemon::process_migrate_syn (src/kvs/daemon.cc lines
912-932): reply KVS_MIGRATE_ACK(partition, current version) when the
installed configuration's version is at least the requested one,
otherwise send nothing. -/
def process_migrate_syn (caller : CommId) (c : Configuration)
    (part version : Nat) : List (CommId × Message) :=
  if c.version ≥ version then
    [(caller, Message.migrateAck part c.version)]
  else
    []

/-- Return codes of the message bus (busybee_returncode). -/
inductive BusybeeRC
  | success
  | shutdown
  | disrupted
  | interrupted
  | pollfailed
  | addfdfail
  | timeout
  | external
deriving DecidableEq

/-- What the recv loop does with a recv result. -/
inductive RecvAction
  | handleMessage
  | exitLoop
  | continueLoop
  | abortProcess
deriving DecidableEq

/-- What daemon::send does with a send result. -/
inductive SendAction
  | returnTrue
  | returnFalse
  | abortProcess
deriving DecidableEq

/-- Translation of the recv switch in daemon::loop (src/kvs/daemon.cc
lines 514-537): SUCCESS falls through to message handling, SHUTDOWN sets
done, DISRUPTED and INTERRUPTED continue the loop, and every remaining
code aborts the process. -/
def recv_dispatch : BusybeeRC → RecvAction
  | BusybeeRC.success => RecvAction.handleMessage
  | BusybeeRC.shutdown => RecvAction.exitLoop
  | BusybeeRC.disrupted => RecvAction.continueLoop
  | BusybeeRC.interrupted => RecvAction.continueLoop
  | BusybeeRC.pollfailed => RecvAction.abortProcess
  | BusybeeRC.addfdfail => RecvAction.abortProcess
  | BusybeeRC.timeout => RecvAction.abortProcess
  | BusybeeRC.external => RecvAction.abortProcess

/-- Translation of the switch in daemon::send (src/kvs/daemon.cc lines
1017-1038): SUCCESS returns true, DISRUPTED returns false, and every
remaining code, SHUTDOWN and INTERRUPTED included, aborts the process. -/
def send_dispatch : BusybeeRC → SendAction
  | BusybeeRC.success => SendAction.returnTrue
  | BusybeeRC.disrupted => SendAction.returnFalse
  | BusybeeRC.shutdown => SendAction.abortProcess
  | BusybeeRC.interrupted => SendAction.abortProcess
  | BusybeeRC.pollfailed => SendAction.abortProcess
  | BusybeeRC.addfdfail => SendAction.abortProcess
  | BusybeeRC.timeout => SendAction.abortProcess
  | BusybeeRC.external => SendAction.abortProcess

/-- Fields of a KVS_RAW_RD_RESP message. -/
structure RawRdRespMsg where
  nonce : Nat
  rc : ConsusRC
  timestamp : Nat
  value : List Byte
  owner : CommId
deriving DecidableEq

/-- Fields of a KVS_RAW_WR_RESP message. -/
structure RawWrRespMsg where
  nonce : Nat
  rc : ConsusRC
  owner1 : CommId
  owner2 : CommId
deriving DecidableEq

/-- Lookup by nonce in a keyed state map (state_hash_table::get_state). -/
def lookupNonce {α : Type} (n : Nat) : List (Nat × α) → Option α
  | [] => none
  | (k, v) :: rest => if k = n then some v else lookupNonce n rest

/-- In-place update of the entry held under a state reference. -/
def updateNonce {α : Type} (n : Nat) (v : α) : List (Nat × α) → List (Nat × α)
  | [] => []
  | (k, w) :: rest => if k = n then (k, v) :: rest else (k, w) :: updateNonce n v rest

/-- Translation of daemon::process_raw_rd_resp (src/kvs/daemon.cc lines
760-800): look the nonce up among the live read replicators; when found,
hand the response to the replicator (read_replicator::response is not
under src/, so its step is a parameter producing the new replicator
state, DataLayer calls and sends); when not found, only log. -/
def process_raw_rd_resp {RR : Type}
    (respond : RR → CommId → RawRdRespMsg → RR × List DLOp × List (CommId × Message))
    (repl_rd : List (Nat × RR)) (caller : CommId) (msg : RawRdRespMsg) :
    List (Nat × RR) × List DLOp × List (CommId × Message) :=
  match lookupNonce msg.nonce repl_rd with
  | some r =>
      let s := respond r caller msg
      (updateNonce msg.nonce s.1 repl_rd, s.2.1, s.2.2)
  | none => (repl_rd, [], [])

/-- Translation of daemon::process_raw_wr_resp (src/kvs/daemon.cc lines
870-891): look the nonce up among the live write replicators; when found,
hand the response to the replicator (write_replicator::response is not
under src/, so its step is a parameter); when not found, only log. -/
def process_raw_wr_resp {WR : Type}
    (respond : WR → CommId → RawWrRespMsg → WR × List DLOp × List (CommId × Message))
    (repl_wr : List (Nat × WR)) (caller : CommId) (msg : RawWrRespMsg) :
    List (Nat × WR) × List DLOp × List (CommId × Message) :=
  match lookupNonce msg.nonce repl_wr with
  | some w =>
      let s := respond w caller msg
      (updateNonce msg.nonce s.1 repl_wr, s.2.1, s.2.2)
  | none => (repl_wr, [], [])

/-- Daemon-side state touched by the configuration callback: our id, our
data center, and the installed configuration pointer (null before the
first install). -/
structure DaemonState where
  us_id : CommId
  us_dc : DataCenterId
  config : Option Configuration

/-- Translation of daemon::coordinator_callback::new_config
(src/kvs/daemon.cc lines 159-194): the blob's decoding is modelled by the
Option argument since e::unpacker is external; a bad blob is rejected
with false and no state change, and any decoded configuration is
installed unconditionally, updating us.dc from it, with result true. -/
def new_config (st : DaemonState) (decoded : Option Configuration) :
    DaemonState × Bool :=
  match decoded with
  | none => (st, false)
  | some c =>
      ({ st with us_dc := c.get_data_center st.us_id, config := some c }, true)

/-- Version of the installed configuration, when one is installed. -/
def installedVersion (st : DaemonState) : Option Nat :=
  st.config.map (fun c => c.version)

/-- Translation of daemon::coordinator_callback::has_id (src/kvs/daemon.cc
lines 196-207): false when no configuration is installed. -/
def has_id (st : DaemonState) (id : CommId) : Bool :=
  match st.config with
  | some c => c.idExists id
  | none => false

/-- Translation of daemon::coordinator_callback::address (src/kvs/daemon.cc
lines 209-220): the empty location when no configuration is installed. -/
def address (st : DaemonState) (id : CommId) : Location :=
  match st.config with
  | some c => c.get_address id
  | none => emptyLocation

/-- Translation of daemon::coordinator_callback::is_steady_state
(src/kvs/daemon.cc lines 222-233): whether the node's state is ONLINE;
false when no configuration is installed. -/
def is_steady_state (st : DaemonState) (id : CommId) : Bool :=
  match st.config with
  | some c => c.get_state id == KvsState.online
  | none => false

/-- Concrete configuration used for witnesses and counterexamples. -/
def cfgEx : Configuration :=
  { version := 7
  , idExists := fun _ => false
  , get_address := fun _ => emptyLocation
  , get_state := fun _ => KvsState.offline
  , get_data_center := fun _ => 0
  , map := fun _ _ => (1, 2) }

/-- Concrete configuration with a chosen version. -/
def cfgV (v : Nat) : Configuration := { cfgEx with version := v }

/-- Concrete DataLayer used for witnesses and counterexamples. -/
def dlEx : DataLayer :=
  { get := fun _ _ ts => (ConsusRC.notFound, ts, [])
  , put := fun _ _ _ _ => ConsusRC.success
  , del := fun _ _ _ => ConsusRC.success }

/-- Key whose 16-bit big-endian prefix equals
CONSUS_MAX_REPLICATION_FACTOR, the value the raw-path guard drops. -/
def keyMax : List Byte := [0, 5]

/-- Daemon state with configuration version 2 installed. -/
def stV2 : DaemonState := { us_id := 4, us_dc := 0, config := some (cfgV 2) }

theorem unpack16be_lt (b0 b1 : Byte) : unpack16be b0 b1 < 65536 := by
  have h0 : b0.val ≤ 255 := Nat.lt_succ_iff.mp b0.isLt
  have h1 : b1.val ≤ 255 := Nat.lt_succ_iff.mp b1.isLt
  unfold unpack16be
  omega

theorem choose_index_lt (table key : List Byte) :
    choose_index table key < 65536 := by
  unfold choose_index
  exact unpack16be_lt _ _

/-- Claim C4: choose_index(table, key) is the 16-bit big-endian integer
formed from the first two key bytes, missing bytes taken as zero; it
ignores the table, so it is deterministic in the key alone, and is always
below 65536. -/
theorem choose_index_first_two_bytes_be (table table' key : List Byte) :
    choose_index table key
        = 256 * (key.headD 0).val + ((key.drop 1).headD 0).val ∧
    choose_index table key = choose_index table' key ∧
    choose_index table key < 65536 := by
  refine ⟨?_, rfl, choose_index_lt table key⟩
  cases key with
  | nil => rfl
  | cons a t =>
    cases t with
    | nil => rfl
    | cons b r => simp [choose_index, unpack16be]

/-- Claim C1: the raw-path guard is wrong. choose_index always lands
inside the 65536-entry partition map, so the claimed policy would never
drop; yet the code drops exactly the in-range index equal to
CONSUS_MAX_REPLICATION_FACTOR, answering such a KVS_RAW_RD or KVS_RAW_WR
with no message and performing no DataLayer call. -/
theorem raw_rd_wr_drop_in_range_index :
    choose_index [] keyMax = CONSUS_MAX_REPLICATION_FACTOR ∧
    CONSUS_MAX_REPLICATION_FACTOR < CONSUS_KVS_PARTITIONS ∧
    (∀ table key, choose_index table key < CONSUS_KVS_PARTITIONS) ∧
    process_raw_rd cfgEx 0 dlEx 9
        { nonce := 11, table := [], key := keyMax, timestamp := 4 } = ([], []) ∧
    process_raw_wr cfgEx 0 dlEx 9
        { nonce := 12, flags := 0, table := [], key := keyMax,
          timestamp := 4, value := [3] } = ([], []) := by
  refine ⟨rfl, by decide, fun t k => choose_index_lt t k, rfl, rfl⟩

/-- Claim C2: the lock handler is an unimplemented NOP; it keeps no lock
record at all and replies CONSUS_SUCCESS to every KVS_LOCK_OP, so an
ACQUIRE against a lock the spec regards as held by a different
transaction still returns success. -/
theorem lock_op_replies_success_unconditionally :
    ∀ (caller : CommId) (nonce : Nat) (table key : List Byte)
      (txid : Nat) (ty : LockT) (op : LockOp),
      process_lock_op caller nonce table key txid ty op
        = [(caller, Message.lockOpResp nonce ConsusRC.success)] :=
  fun _ _ _ _ _ _ _ => rfl

/-- Claim C3, counterexample: with version 2 installed, delivering a
decoded configuration of version 1 (not greater) leaves the installed
version at 1, not 2: new_config does not ignore stale configurations. -/
theorem new_config_installs_stale_version :
    (cfgV 1).version ≤ (cfgV 2).version ∧
    installedVersion stV2 = some 2 ∧
    installedVersion (new_config stV2 (some (cfgV 1))).1 = some 1 :=
  ⟨by decide, rfl, rfl⟩

/-- Claim C3, amended: new_config installs every successfully decoded
configuration unconditionally, whatever its version, returning true, and
rejects only undecodable blobs, returning false with the state
unchanged. -/
theorem new_config_unconditional_install :
    ∀ (st : DaemonState) (c : Configuration),
      installedVersion (new_config st (some c)).1 = some c.version ∧
      (new_config st (some c)).1.config = some c ∧
      (new_config st (some c)).2 = true ∧
      new_config st none = (st, false) :=
  fun _ _ => ⟨rfl, rfl, rfl, rfl⟩

/-- Claim C5, counterexample: a KVS_RAW_RD whose partition index is in
range for the partition map (it always is) but equal to
CONSUS_MAX_REPLICATION_FACTOR triggers no DataLayer.get and no response,
against the claim that every in-range request is processed and
answered. -/
theorem raw_rd_in_range_dropped :
    choose_index [] keyMax < CONSUS_KVS_PARTITIONS ∧
    process_raw_rd cfgEx 0 dlEx 9
        { nonce := 21, table := [], key := keyMax, timestamp := 8 } = ([], []) :=
  ⟨by decide, rfl⟩

/-- Claim C5, amended: for every well-formed KVS_RAW_RD whose partition
index differs from CONSUS_MAX_REPLICATION_FACTOR, the daemon performs
exactly one DataLayer.get(table, key, ts) and sends back to the caller
exactly one KVS_RAW_RD_RESP carrying the same nonce, the returncode, the
actual timestamp, the value, and owner1 of map(us.dc, index). -/
theorem process_raw_rd_guard_passing
    (c : Configuration) (dc : DataCenterId) (dl : DataLayer)
    (caller : CommId) (req : RawRdReq)
    (h : choose_index req.table req.key ≠ CONSUS_MAX_REPLICATION_FACTOR) :
    process_raw_rd c dc dl caller req
      = ([DLOp.get req.table req.key req.timestamp],
          [(caller, Message.rawRdResp req.nonce
              (dl.get req.table req.key req.timestamp).1
              (dl.get req.table req.key req.timestamp).2.1
              (dl.get req.table req.key req.timestamp).2.2
              (c.map dc (choose_index req.table req.key)).1)]) := by
  unfold process_raw_rd
  rw [if_neg h]

theorem process_raw_rd_guard_passing_witness :
    process_raw_rd cfgEx 0 dlEx 9
        { nonce := 1, table := [], key := [], timestamp := 3 }
      = ([DLOp.get [] [] 3],
          [(9, Message.rawRdResp 1 ConsusRC.notFound 3 [] 1)]) :=
  process_raw_rd_guard_passing cfgEx 0 dlEx 9
    { nonce := 1, table := [], key := [], timestamp := 3 } (by decide)

/-- Claim C6, counterexample: a KVS_RAW_WR whose partition index is in
range for the partition map but equal to CONSUS_MAX_REPLICATION_FACTOR
triggers neither DataLayer.del nor put and no response. -/
theorem raw_wr_in_range_dropped :
    choose_index [] keyMax < CONSUS_KVS_PARTITIONS ∧
    process_raw_wr cfgEx 0 dlEx 9
        { nonce := 22, flags := 1, table := [], key := keyMax,
          timestamp := 8, value := [] } = ([], []) :=
  ⟨by decide, rfl⟩

/-- Claim C6, amended: for every well-formed KVS_RAW_WR whose partition
index differs from CONSUS_MAX_REPLICATION_FACTOR, the daemon invokes
DataLayer.del(table, key, ts) when the tombstone flag is set and
DataLayer.put(table, key, ts, value) otherwise, and replies with one
KVS_RAW_WR_RESP carrying the same nonce, the DataLayer returncode, and
the (owner1, owner2) pair of map(us.dc, index). -/
theorem process_raw_wr_guard_passing
    (c : Configuration) (dc : DataCenterId) (dl : DataLayer)
    (caller : CommId) (req : RawWrReq)
    (h : choose_index req.table req.key ≠ CONSUS_MAX_REPLICATION_FACTOR) :
    (CONSUS_WRITE_TOMBSTONE &&& req.flags ≠ 0 →
      process_raw_wr c dc dl caller req
        = ([DLOp.del req.table req.key req.timestamp],
            [(caller, Message.rawWrResp req.nonce
                (dl.del req.table req.key req.timestamp)
                (c.map dc (choose_index req.table req.key)).1
                (c.map dc (choose_index req.table req.key)).2)])) ∧
    (CONSUS_WRITE_TOMBSTONE &&& req.flags = 0 →
      process_raw_wr c dc dl caller req
        = ([DLOp.put req.table req.key req.timestamp req.value],
            [(caller, Message.rawWrResp req.nonce
                (dl.put req.table req.key req.timestamp req.value)
                (c.map dc (choose_index req.table req.key)).1
                (c.map dc (choose_index req.table req.key)).2)])) := by
  constructor
  · intro ht
    unfold process_raw_wr
    rw [if_neg h, if_pos ht]
  · intro ht
    unfold process_raw_wr
    rw [if_neg h, if_neg (fun hc => hc ht)]

theorem process_raw_wr_guard_passing_witness :
    process_raw_wr cfgEx 0 dlEx 9
        { nonce := 2, flags := 1, table := [], key := [],
          timestamp := 3, value := [7] }
      = ([DLOp.del [] [] 3],
          [(9, Message.rawWrResp 2 ConsusRC.success 1 2)]) :=
  (process_raw_wr_guard_passing cfgEx 0 dlEx 9
      { nonce := 2, flags := 1, table := [], key := [],
        timestamp := 3, value := [7] } (by decide)).1 (by decide)

/-- Claim C7: a KVS_MIGRATE_SYN(partition, target) is answered with
KVS_MIGRATE_ACK(partition, current version) exactly when the installed
configuration's version is at least the target, and is answered with
nothing exactly when it is below the target. -/
theorem process_migrate_syn_ack_iff
    (caller : CommId) (c : Configuration) (part version : Nat) :
    (process_migrate_syn caller c part version
        = [(caller, Message.migrateAck part c.version)] ↔ version ≤ c.version) ∧
    (process_migrate_syn caller c part version = [] ↔ c.version < version) := by
  unfold process_migrate_syn
  by_cases h : c.version ≥ version
  · rw [if_pos h]
    constructor
    · constructor
      · intro _
        exact h
      · intro _
        rfl
    · constructor
      · intro he
        exact absurd he (List.cons_ne_nil _ _)
      · intro hlt
        exfalso
        omega
  · rw [if_neg h]
    constructor
    · constructor
      · intro he
        exact absurd he.symm (List.cons_ne_nil _ _)
      · intro hle
        exfalso
        omega
    · constructor
      · intro _
        omega
      · intro _
        rfl

/-- Claim C8, counterexample: on the send path, INTERRUPTED and SHUTDOWN
both abort the process, against the claim that for every send result
INTERRUPTED is tolerated without aborting and SHUTDOWN exits the worker
loop. -/
theorem send_shutdown_interrupted_abort :
    send_dispatch BusybeeRC.interrupted = SendAction.abortProcess ∧
    send_dispatch BusybeeRC.shutdown = SendAction.abortProcess :=
  ⟨rfl, rfl⟩

/-- Claim C8, amended: on recv, SHUTDOWN exits the worker loop, DISRUPTED
and INTERRUPTED continue it, and POLLFAILED, ADDFDFAIL, TIMEOUT and
EXTERNAL abort the process; on send, SUCCESS reports true, DISRUPTED
reports false, and every other code, SHUTDOWN and INTERRUPTED included,
aborts the process. -/
theorem busybee_dispatch_table :
    recv_dispatch BusybeeRC.success = RecvAction.handleMessage ∧
    recv_dispatch BusybeeRC.shutdown = RecvAction.exitLoop ∧
    recv_dispatch BusybeeRC.disrupted = RecvAction.continueLoop ∧
    recv_dispatch BusybeeRC.interrupted = RecvAction.continueLoop ∧
    recv_dispatch BusybeeRC.pollfailed = RecvAction.abortProcess ∧
    recv_dispatch BusybeeRC.addfdfail = RecvAction.abortProcess ∧
    recv_dispatch BusybeeRC.timeout = RecvAction.abortProcess ∧
    recv_dispatch BusybeeRC.external = RecvAction.abortProcess ∧
    send_dispatch BusybeeRC.success = SendAction.returnTrue ∧
    send_dispatch BusybeeRC.disrupted = SendAction.returnFalse ∧
    send_dispatch BusybeeRC.shutdown = SendAction.abortProcess ∧
    send_dispatch BusybeeRC.interrupted = SendAction.abortProcess ∧
    send_dispatch BusybeeRC.pollfailed = SendAction.abortProcess ∧
    send_dispatch BusybeeRC.addfdfail = SendAction.abortProcess ∧
    send_dispatch BusybeeRC.timeout = SendAction.abortProcess ∧
    send_dispatch BusybeeRC.external = SendAction.abortProcess := by
  decide

/-- Claim C9: a KVS_RAW_RD_RESP or KVS_RAW_WR_RESP whose nonce matches no
live replicator is dropped: the replicator map is unchanged, no DataLayer
call runs, and no message is sent. -/
theorem resp_unknown_nonce_dropped {RR WR : Type}
    (respondRd : RR → CommId → RawRdRespMsg → RR × List DLOp × List (CommId × Message))
    (respondWr : WR → CommId → RawWrRespMsg → WR × List DLOp × List (CommId × Message))
    (repl_rd : List (Nat × RR)) (repl_wr : List (Nat × WR)) (caller : CommId)
    (mrd : RawRdRespMsg) (mwr : RawWrRespMsg)
    (hrd : lookupNonce mrd.nonce repl_rd = none)
    (hwr : lookupNonce mwr.nonce repl_wr = none) :
    process_raw_rd_resp respondRd repl_rd caller mrd = (repl_rd, [], []) ∧
    process_raw_wr_resp respondWr repl_wr caller mwr = (repl_wr, [], []) := by
  constructor
  · unfold process_raw_rd_resp
    rw [hrd]
  · unfold process_raw_wr_resp
    rw [hwr]

theorem resp_unknown_nonce_dropped_witness :
    process_raw_rd_resp (fun (r : Nat) _ _ => (r, [], [])) [(1, 5)] 3
        { nonce := 2, rc := ConsusRC.success, timestamp := 0,
          value := [], owner := 0 } = ([(1, 5)], [], []) ∧
    process_raw_wr_resp (fun (w : Nat) _ _ => (w, [], [])) [(1, 6)] 3
        { nonce := 2, rc := ConsusRC.success, owner1 := 0, owner2 := 0 }
      = ([(1, 6)], [], []) :=
  resp_unknown_nonce_dropped _ _ _ _ _ _ _ rfl rfl

/-- Claim C10: while no configuration is installed, every
coordinator-callback query is total and returns its safe default: has_id
is false, address is the empty location, is_steady_state is false, for
every id. -/
theorem no_config_safe_defaults (st : DaemonState) (id : CommId)
    (h : st.config = none) :
    has_id st id = false ∧
    address st id = emptyLocation ∧
    is_steady_state st id = false := by
  unfold has_id address is_steady_state
  rw [h]
  exact ⟨rfl, rfl, rfl⟩

theorem no_config_safe_defaults_witness :
    has_id { us_id := 0, us_dc := 0, config := none } 7 = false ∧
    address { us_id := 0, us_dc := 0, config := none } 7 = emptyLocation ∧
    is_steady_state { us_id := 0, us_dc := 0, config := none } 7 = false :=
  no_config_safe_defaults { us_id := 0, us_dc := 0, config := none } 7 rfl

end Consus
